import Mathlib

/-!
Shallow embedding of the Qualcomm SCM firmware-dispatch layer
(`drivers/firmware/qcom_scm.c`): the clock/bandwidth resource gate, the
calling-convention negotiator, the call dispatcher's convention switch,
the memory-ownership reassignment façade, the inline-encryption key
operations, the peripheral-authentication image-init path, and the
wait-queue completion bridge.  Integer error codes follow errno:
`-EINVAL = -22`, `-ENOMEM = -12`.
-/

namespace QcomScm

/-! ## Resource gate: clocks (`qcom_scm_clk_enable` / `qcom_scm_clk_disable`) -/

/-- Which of the three optional SCM clocks an event touches. -/
inductive Clk : Type
  | core
  | iface
  | bus
deriving DecidableEq, Repr

/-- An observable action on a clock: a `clk_prepare_enable` attempt (with
its success bit) or a `clk_disable_unprepare`. -/
inductive ClkEvent : Type
  | prepareEnable (c : Clk) (ok : Bool)
  | disableUnprepare (c : Clk)
deriving DecidableEq, Repr

/-- Enable counts of the three clocks (`clk_prepare_enable` increments,
`clk_disable_unprepare` decrements). -/
structure ClkState : Type where
  core : Nat
  iface : Nat
  bus : Nat
deriving DecidableEq, Repr

/-- All three clocks unprepared. -/
def clkInit : ClkState := ⟨0, 0, 0⟩

/-- Outcome of `clk_prepare_enable`, driven by an oracle return value:
the count is incremented exactly when the call returns 0. -/
def clk_prepare_enable (ret : Int) (count : Nat) : Int × Nat :=
  if ret = 0 then (0, count + 1) else (ret, count)

/-- Oracle for one run of `qcom_scm_clk_enable`: the return value which
`clk_prepare_enable` reports for each of the three stages. -/
structure ClkOracle : Type where
  coreRet : Int
  ifaceRet : Int
  busRet : Int
deriving DecidableEq, Repr

/-- Model of `qcom_scm_clk_enable`: enable core, then iface, then bus; on a failed
stage roll back the earlier stages (labels `disable_iface`,
`disable_core`) and return the error.  The event list records the order
of actions. -/
def qcom_scm_clk_enable (o : ClkOracle) (s : ClkState) :
    Int × ClkState × List ClkEvent :=
  let (retCore, core') := clk_prepare_enable o.coreRet s.core
  if retCore ≠ 0 then
    (retCore, s, [ClkEvent.prepareEnable Clk.core false])
  else
    let (retIface, iface') := clk_prepare_enable o.ifaceRet s.iface
    if retIface ≠ 0 then
      (retIface, { s with core := core' - 1 },
        [ClkEvent.prepareEnable Clk.core true,
         ClkEvent.prepareEnable Clk.iface false,
         ClkEvent.disableUnprepare Clk.core])
    else
      let (retBus, bus') := clk_prepare_enable o.busRet s.bus
      if retBus ≠ 0 then
        (retBus, { s with core := core' - 1, iface := iface' - 1 },
          [ClkEvent.prepareEnable Clk.core true,
           ClkEvent.prepareEnable Clk.iface true,
           ClkEvent.prepareEnable Clk.bus false,
           ClkEvent.disableUnprepare Clk.iface,
           ClkEvent.disableUnprepare Clk.core])
      else
        (0, { core := core', iface := iface', bus := bus' },
          [ClkEvent.prepareEnable Clk.core true,
           ClkEvent.prepareEnable Clk.iface true,
           ClkEvent.prepareEnable Clk.bus true])

/-- Model of `qcom_scm_clk_disable`: unconditionally disable core, iface, bus. -/
def qcom_scm_clk_disable (s : ClkState) : ClkState :=
  { core := s.core - 1, iface := s.iface - 1, bus := s.bus - 1 }

/-! ## Resource gate: bandwidth votes (`qcom_scm_bw_enable` / `qcom_scm_bw_disable`) -/

/-- State of `__scm->path`: absent (`NULL`), an `ERR_PTR`, or a live
interconnect path handle. -/
inductive IccPath : Type
  | nullPath
  | errPath
  | okPath
deriving DecidableEq, Repr

/-- The bandwidth gate: the signed vote refcount `scm_vote_count` and
whether a nonzero bandwidth request is currently set on the path. -/
structure BwState : Type where
  voteCount : Int
  bwSet : Bool
deriving DecidableEq, Repr

/-- Fresh gate: zero votes, no bandwidth set. -/
def bwInit : BwState := ⟨0, false⟩

/-- Model of `qcom_scm_bw_enable`: success (0) when no path is configured; `-22`
(`-EINVAL`) when the path handle is an error; otherwise, when the vote
count is exactly zero, issue `icc_set_bw` (whose return the oracle
`iccRet` supplies) and increment only on its success; when the count is
nonzero, increment without touching the interconnect. -/
def qcom_scm_bw_enable (path : IccPath) (iccRet : Int) (s : BwState) :
    Int × BwState :=
  match path with
  | IccPath.nullPath => (0, s)
  | IccPath.errPath => (-22, s)
  | IccPath.okPath =>
    if s.voteCount = 0 then
      if iccRet < 0 then (iccRet, s)
      else (0, { voteCount := s.voteCount + 1, bwSet := true })
    else (0, { s with voteCount := s.voteCount + 1 })

/-- Model of `qcom_scm_bw_disable`: no-op when the path is `NULL` or an error;
otherwise the post-decrement `scm_vote_count--` always decrements, and
the bandwidth request is dropped exactly when the pre-decrement value
was 1. -/
def qcom_scm_bw_disable (path : IccPath) (s : BwState) : BwState :=
  match path with
  | IccPath.nullPath => s
  | IccPath.errPath => s
  | IccPath.okPath =>
    { voteCount := s.voteCount - 1,
      bwSet := if s.voteCount = 1 then false else s.bwSet }

/-- One gate operation: an enable attempt (with its `icc_set_bw` oracle
return) or a disable. -/
inductive BwOp : Type
  | enable (iccRet : Int)
  | disable
deriving DecidableEq, Repr

/-- Run a sequence of bandwidth-gate operations. -/
def runBwOps (path : IccPath) : List BwOp → BwState → BwState
  | [], s => s
  | BwOp.enable r :: ops, s => runBwOps path ops (qcom_scm_bw_enable path r s).2
  | BwOp.disable :: ops, s => runBwOps path ops (qcom_scm_bw_disable path s)

/-- A sequence is disable-safe from a state when every disable occurs
while the vote count is positive. -/
def bwDisableSafe (path : IccPath) : List BwOp → BwState → Bool
  | [], _ => true
  | BwOp.enable r :: ops, s =>
      bwDisableSafe path ops (qcom_scm_bw_enable path r s).2
  | BwOp.disable :: ops, s =>
      decide (0 < s.voteCount) && bwDisableSafe path ops (qcom_scm_bw_disable path s)

/-! ## Convention negotiator (`__get_convention`) -/

/-- The `enum qcom_scm_convention` values. -/
inductive SmcConvention : Type
  | unknown
  | arm32
  | arm64
  | legacy
deriving DecidableEq, Repr

/-- Platform facts `__get_convention` consults: whether `CONFIG_ARM64`
is enabled and whether the device node is compatible with
`"qcom,scm-sc7180"`. -/
structure ConvConfig : Type where
  arm64 : Bool
  sc7180 : Bool
deriving DecidableEq, Repr

/-- Probe outcomes the firmware supplies through `__scm_smc_call` for
the `QCOM_SCM_INFO_IS_CALL_AVAIL` query, one per probed convention:
the call's return value and its first result word. -/
structure ProbeOracle : Type where
  arm64Ret : Int
  arm64Res0 : Nat
  arm32Ret : Int
  arm32Res0 : Nat
deriving DecidableEq, Repr

/-- An affirmative probe: `!ret && res.result[0] == 1`. -/
def probeOk (ret : Int) (res0 : Nat) : Bool :=
  decide (ret = 0) && decide (res0 = 1)

/-- What one run of `__get_convention` produced: the returned
convention, whether the choice was forced (the sc7180 quirk), the new
cached value of `qcom_scm_convention`, and the list of conventions
actually probed via `__scm_smc_call`, in order. -/
structure ConvResult : Type where
  result : SmcConvention
  forced : Bool
  cached : SmcConvention
  probes : List SmcConvention
deriving DecidableEq, Repr

/-- Model of `__get_convention`: return the cached convention when it is already
resolved; otherwise, on ARM64, probe `ARM_64` and adopt it on an
affirmative answer, force-adopt `ARM_64` (marking it forced) on the
sc7180 variant when the probe was inconclusive, otherwise probe
`ARM_32`, and fall back to `LEGACY` unconditionally; publish the
resolved value in the cache. -/
def get_convention (cfg : ConvConfig) (o : ProbeOracle)
    (cached : SmcConvention) : ConvResult :=
  if cached ≠ SmcConvention.unknown then
    { result := cached, forced := false, cached := cached, probes := [] }
  else if cfg.arm64 then
    if probeOk o.arm64Ret o.arm64Res0 then
      { result := SmcConvention.arm64, forced := false,
        cached := SmcConvention.arm64, probes := [SmcConvention.arm64] }
    else if cfg.sc7180 then
      { result := SmcConvention.arm64, forced := true,
        cached := SmcConvention.arm64, probes := [SmcConvention.arm64] }
    else if probeOk o.arm32Ret o.arm32Res0 then
      { result := SmcConvention.arm32, forced := false,
        cached := SmcConvention.arm32,
        probes := [SmcConvention.arm64, SmcConvention.arm32] }
    else
      { result := SmcConvention.legacy, forced := false,
        cached := SmcConvention.legacy,
        probes := [SmcConvention.arm64, SmcConvention.arm32] }
  else
    if probeOk o.arm32Ret o.arm32Res0 then
      { result := SmcConvention.arm32, forced := false,
        cached := SmcConvention.arm32, probes := [SmcConvention.arm32] }
    else
      { result := SmcConvention.legacy, forced := false,
        cached := SmcConvention.legacy, probes := [SmcConvention.arm32] }

/-! ## Call dispatcher convention switch (`qcom_scm_call`, `qcom_scm_call_atomic`) -/

/-- Which backend a call was dispatched to. -/
inductive DispatchKind : Type
  | smc (atomic : Bool)
  | legacy (atomic : Bool)
deriving DecidableEq, Repr

/-- The convention `switch` of `qcom_scm_call`: `ARM_32`/`ARM_64`
dispatch to `scm_smc_call` (non-atomic), `LEGACY` to
`scm_legacy_call`, and the `default` arm returns `-EINVAL` without
dispatching. -/
def qcom_scm_call (conv : SmcConvention) : Except Int DispatchKind :=
  match conv with
  | SmcConvention.arm32 => Except.ok (DispatchKind.smc false)
  | SmcConvention.arm64 => Except.ok (DispatchKind.smc false)
  | SmcConvention.legacy => Except.ok (DispatchKind.legacy false)
  | SmcConvention.unknown => Except.error (-22)

/-- The convention `switch` of `qcom_scm_call_atomic`: as
`qcom_scm_call` but dispatching to the atomic variants. -/
def qcom_scm_call_atomic (conv : SmcConvention) : Except Int DispatchKind :=
  match conv with
  | SmcConvention.arm32 => Except.ok (DispatchKind.smc true)
  | SmcConvention.arm64 => Except.ok (DispatchKind.smc true)
  | SmcConvention.legacy => Except.ok (DispatchKind.legacy true)
  | SmcConvention.unknown => Except.error (-22)

/-! ## Memory-ownership reassignment (`qcom_scm_assign_mem`) -/

/-- One destination entry of `struct qcom_scm_vmperm`. -/
structure VmPerm : Type where
  vmid : Nat
  perm : Nat
deriving DecidableEq, Repr

/-- The kernel macro `BIT(b)` as the 64-bit unsigned long the kernel macro produces. -/
def BIT64 (b : Nat) : Nat := (1 <<< b) % 2 ^ 64

/-- One step of `next_vm |= BIT(newvm->vmid)`: the `int` accumulator is
promoted to unsigned long, OR-ed with `BIT(vmid)`, and truncated back
to 32 bits on store. -/
def next_vm_step (acc : Nat) (vmid : Nat) : Nat :=
  (acc ||| BIT64 vmid) % 2 ^ 32

/-- The 32-bit pattern of `next_vm` accumulated over the destination
list. -/
def next_vm_bits (newvm : List VmPerm) : Nat :=
  newvm.foldl (fun acc p => next_vm_step acc p.vmid) 0

/-- Conversion of the `int next_vm` to the `u64 *srcvm`: sign-extend
the 32-bit pattern to 64 bits. -/
def u64_of_int32bits (n : Nat) : Nat :=
  if n < 2 ^ 31 then n else 2 ^ 64 - 2 ^ 32 + n

/-- Model of `qcom_scm_assign_mem`: on allocation failure return `-ENOMEM` with
`*srcvm` untouched; marshal the descriptors, issue
`__qcom_scm_assign_mem` (return value supplied by `callRet`), free the
transport buffer; on call failure return `-EINVAL` with `*srcvm`
untouched; on success store the accumulated `next_vm` into `*srcvm`
and return 0.  The result pairs the return value with the final
`*srcvm`. -/
def qcom_scm_assign_mem (allocOk : Bool) (callRet : Int) (srcvm : Nat)
    (newvm : List VmPerm) : Int × Nat :=
  if ¬allocOk then (-12, srcvm)
  else if callRet ≠ 0 then (-22, srcvm)
  else (0, u64_of_int32bits (next_vm_bits newvm))

/-! ## Inline-encryption key operations

Each operation is rendered as the integer it returns paired with the
ordered trace of buffer actions it performs.  Buffers are numbered in
allocation order (1 = first allocation, 2 = second).  A `free` event
records the content the buffer holds at the moment its backing store
is handed back to the allocator (`dma_free_coherent` /
`qtee_shmbridge_free_shm`), as determined by the writes this driver
performed up to that point. -/

/-- Abstract content of a transport buffer at an observation point. -/
inductive BufContent : Type
  | zeros
  | callerKey
  | fwOutput
deriving DecidableEq, Repr

/-- Observable buffer actions of one key operation. -/
inductive IceEvent : Type
  | alloc (buf : Nat) (ok : Bool)
  | copyIn (buf : Nat)
  | memsetZero (buf : Nat)
  | flush (buf : Nat)
  | scmCall (ret : Int)
  | inv (buf : Nat)
  | copyOut (buf : Nat)
  | memzeroExplicit (buf : Nat)
  | free (buf : Nat) (content : BufContent)
deriving DecidableEq, Repr

/-- Model of `qcom_scm_ice_set_key`: one key transport buffer.  Bridged backend:
allocate, copy the key in, flush, call, invalidate on success, free.
Direct backend: allocate coherent memory, copy the key in, call,
`memzero_explicit` only on the success path, free. -/
def qcom_scm_ice_set_key (useBridge allocOk : Bool) (callRet : Int) :
    Int × List IceEvent :=
  if useBridge then
    if ¬allocOk then (-12, [IceEvent.alloc 1 false])
    else if callRet ≠ 0 then
      (callRet, [IceEvent.alloc 1 true, IceEvent.copyIn 1, IceEvent.flush 1,
        IceEvent.scmCall callRet, IceEvent.free 1 BufContent.callerKey])
    else
      (0, [IceEvent.alloc 1 true, IceEvent.copyIn 1, IceEvent.flush 1,
        IceEvent.scmCall 0, IceEvent.inv 1, IceEvent.free 1 BufContent.callerKey])
  else
    if ¬allocOk then (-12, [IceEvent.alloc 1 false])
    else if callRet ≠ 0 then
      (callRet, [IceEvent.alloc 1 true, IceEvent.copyIn 1,
        IceEvent.scmCall callRet, IceEvent.free 1 BufContent.callerKey])
    else
      (0, [IceEvent.alloc 1 true, IceEvent.copyIn 1, IceEvent.scmCall 0,
        IceEvent.memzeroExplicit 1, IceEvent.free 1 BufContent.zeros])

/-- Model of `qcom_scm_derive_sw_secret`: two buffers.  Bridged backend
allocates the secret output buffer first (zero-filled), then the
wrapped-key buffer; on second-allocation failure the first is freed
still zero-filled.  Direct backend allocates the wrapped-key buffer
first, then the secret buffer; on second-allocation failure the first
is `memzero_explicit`-ed and freed; both are zeroized on every exit. -/
def qcom_scm_derive_sw_secret (useBridge alloc1Ok alloc2Ok : Bool)
    (callRet : Int) : Int × List IceEvent :=
  if useBridge then
    if ¬alloc1Ok then (-12, [IceEvent.alloc 1 false])
    else if ¬alloc2Ok then
      (-12, [IceEvent.alloc 1 true, IceEvent.memsetZero 1, IceEvent.flush 1,
        IceEvent.alloc 2 false, IceEvent.free 1 BufContent.zeros])
    else if callRet ≠ 0 then
      (callRet, [IceEvent.alloc 1 true, IceEvent.memsetZero 1, IceEvent.flush 1,
        IceEvent.alloc 2 true, IceEvent.copyIn 2, IceEvent.flush 2,
        IceEvent.scmCall callRet,
        IceEvent.free 1 BufContent.zeros, IceEvent.free 2 BufContent.callerKey])
    else
      (0, [IceEvent.alloc 1 true, IceEvent.memsetZero 1, IceEvent.flush 1,
        IceEvent.alloc 2 true, IceEvent.copyIn 2, IceEvent.flush 2,
        IceEvent.scmCall 0, IceEvent.inv 1, IceEvent.copyOut 1, IceEvent.inv 2,
        IceEvent.free 1 BufContent.fwOutput, IceEvent.free 2 BufContent.callerKey])
  else
    if ¬alloc1Ok then (-12, [IceEvent.alloc 1 false])
    else if ¬alloc2Ok then
      (-12, [IceEvent.alloc 1 true, IceEvent.alloc 2 false,
        IceEvent.memzeroExplicit 1, IceEvent.free 1 BufContent.zeros])
    else if callRet ≠ 0 then
      (callRet, [IceEvent.alloc 1 true, IceEvent.alloc 2 true, IceEvent.copyIn 1,
        IceEvent.scmCall callRet,
        IceEvent.memzeroExplicit 2, IceEvent.free 2 BufContent.zeros,
        IceEvent.memzeroExplicit 1, IceEvent.free 1 BufContent.zeros])
    else
      (0, [IceEvent.alloc 1 true, IceEvent.alloc 2 true, IceEvent.copyIn 1,
        IceEvent.scmCall 0, IceEvent.copyOut 2,
        IceEvent.memzeroExplicit 2, IceEvent.free 2 BufContent.zeros,
        IceEvent.memzeroExplicit 1, IceEvent.free 1 BufContent.zeros])

/-- Model of `qcom_scm_generate_ice_key`: one output buffer.  Bridged backend:
allocate, zero-fill, flush, call, invalidate+copy out on success,
free.  Direct backend: allocate, call, copy out on success,
`memzero_explicit`, free. -/
def qcom_scm_generate_ice_key (useBridge allocOk : Bool) (callRet : Int) :
    Int × List IceEvent :=
  if useBridge then
    if ¬allocOk then (-12, [IceEvent.alloc 1 false])
    else if callRet ≠ 0 then
      (callRet, [IceEvent.alloc 1 true, IceEvent.memsetZero 1, IceEvent.flush 1,
        IceEvent.scmCall callRet, IceEvent.free 1 BufContent.zeros])
    else
      (0, [IceEvent.alloc 1 true, IceEvent.memsetZero 1, IceEvent.flush 1,
        IceEvent.scmCall 0, IceEvent.inv 1, IceEvent.copyOut 1,
        IceEvent.free 1 BufContent.fwOutput])
  else
    if ¬allocOk then (-12, [IceEvent.alloc 1 false])
    else if callRet ≠ 0 then
      (callRet, [IceEvent.alloc 1 true, IceEvent.scmCall callRet,
        IceEvent.memzeroExplicit 1, IceEvent.free 1 BufContent.zeros])
    else
      (0, [IceEvent.alloc 1 true, IceEvent.scmCall 0, IceEvent.copyOut 1,
        IceEvent.memzeroExplicit 1, IceEvent.free 1 BufContent.zeros])

/-- Model of `qcom_scm_prepare_ice_key`: two buffers.  Bridged backend allocates
the ephemeral output buffer first (zero-filled), then the long-term
key buffer, and copies the long-term key in only after both
allocations.  Direct backend allocates long-term first, then
ephemeral, copies in after both allocations, and zeroizes both on
every exit. -/
def qcom_scm_prepare_ice_key (useBridge alloc1Ok alloc2Ok : Bool)
    (callRet : Int) : Int × List IceEvent :=
  if useBridge then
    if ¬alloc1Ok then (-12, [IceEvent.alloc 1 false])
    else if ¬alloc2Ok then
      (-12, [IceEvent.alloc 1 true, IceEvent.memsetZero 1, IceEvent.flush 1,
        IceEvent.alloc 2 false, IceEvent.free 1 BufContent.zeros])
    else if callRet ≠ 0 then
      (callRet, [IceEvent.alloc 1 true, IceEvent.memsetZero 1, IceEvent.flush 1,
        IceEvent.alloc 2 true, IceEvent.copyIn 2, IceEvent.flush 2,
        IceEvent.scmCall callRet,
        IceEvent.free 1 BufContent.zeros, IceEvent.free 2 BufContent.callerKey])
    else
      (0, [IceEvent.alloc 1 true, IceEvent.memsetZero 1, IceEvent.flush 1,
        IceEvent.alloc 2 true, IceEvent.copyIn 2, IceEvent.flush 2,
        IceEvent.scmCall 0, IceEvent.inv 1, IceEvent.copyOut 1, IceEvent.inv 2,
        IceEvent.free 1 BufContent.fwOutput, IceEvent.free 2 BufContent.callerKey])
  else
    if ¬alloc1Ok then (-12, [IceEvent.alloc 1 false])
    else if ¬alloc2Ok then
      (-12, [IceEvent.alloc 1 true, IceEvent.alloc 2 false,
        IceEvent.memzeroExplicit 1, IceEvent.free 1 BufContent.zeros])
    else if callRet ≠ 0 then
      (callRet, [IceEvent.alloc 1 true, IceEvent.alloc 2 true, IceEvent.copyIn 1,
        IceEvent.scmCall callRet,
        IceEvent.memzeroExplicit 2, IceEvent.free 2 BufContent.zeros,
        IceEvent.memzeroExplicit 1, IceEvent.free 1 BufContent.zeros])
    else
      (0, [IceEvent.alloc 1 true, IceEvent.alloc 2 true, IceEvent.copyIn 1,
        IceEvent.scmCall 0, IceEvent.copyOut 2,
        IceEvent.memzeroExplicit 2, IceEvent.free 2 BufContent.zeros,
        IceEvent.memzeroExplicit 1, IceEvent.free 1 BufContent.zeros])

/-- Model of `qcom_scm_import_ice_key`: two buffers.  Bridged backend allocates
the import-key buffer first and copies the caller's raw key into it
*before* allocating the long-term output buffer; on second-allocation
failure the first buffer is freed holding the raw key.  Direct backend
allocates both buffers before copying in, and zeroizes both on every
exit. -/
def qcom_scm_import_ice_key (useBridge alloc1Ok alloc2Ok : Bool)
    (callRet : Int) : Int × List IceEvent :=
  if useBridge then
    if ¬alloc1Ok then (-12, [IceEvent.alloc 1 false])
    else if ¬alloc2Ok then
      (-12, [IceEvent.alloc 1 true, IceEvent.copyIn 1, IceEvent.flush 1,
        IceEvent.alloc 2 false, IceEvent.free 1 BufContent.callerKey])
    else if callRet ≠ 0 then
      (callRet, [IceEvent.alloc 1 true, IceEvent.copyIn 1, IceEvent.flush 1,
        IceEvent.alloc 2 true, IceEvent.memsetZero 2, IceEvent.flush 2,
        IceEvent.scmCall callRet,
        IceEvent.free 1 BufContent.callerKey, IceEvent.free 2 BufContent.zeros])
    else
      (0, [IceEvent.alloc 1 true, IceEvent.copyIn 1, IceEvent.flush 1,
        IceEvent.alloc 2 true, IceEvent.memsetZero 2, IceEvent.flush 2,
        IceEvent.scmCall 0, IceEvent.inv 2, IceEvent.copyOut 2, IceEvent.inv 1,
        IceEvent.free 1 BufContent.callerKey, IceEvent.free 2 BufContent.fwOutput])
  else
    if ¬alloc1Ok then (-12, [IceEvent.alloc 1 false])
    else if ¬alloc2Ok then
      (-12, [IceEvent.alloc 1 true, IceEvent.alloc 2 false,
        IceEvent.memzeroExplicit 1, IceEvent.free 1 BufContent.zeros])
    else if callRet ≠ 0 then
      (callRet, [IceEvent.alloc 1 true, IceEvent.alloc 2 true, IceEvent.copyIn 1,
        IceEvent.scmCall callRet,
        IceEvent.memzeroExplicit 2, IceEvent.free 2 BufContent.zeros,
        IceEvent.memzeroExplicit 1, IceEvent.free 1 BufContent.zeros])
    else
      (0, [IceEvent.alloc 1 true, IceEvent.alloc 2 true, IceEvent.copyIn 1,
        IceEvent.scmCall 0, IceEvent.copyOut 2,
        IceEvent.memzeroExplicit 2, IceEvent.free 2 BufContent.zeros,
        IceEvent.memzeroExplicit 1, IceEvent.free 1 BufContent.zeros])

/-! ## Peripheral authentication image init (`qcom_scm_pas_init_image`) -/

/-- Where the metadata buffer ends up when the function returns. -/
inductive BufDisposition : Type
  | neverAllocated
  | freed
  | ownedByCtx
  | leaked
deriving DecidableEq, Repr

/-- Caller-visible outcome of `qcom_scm_pas_init_image`: the returned
value, the metadata buffer's disposition, and whether the SCM clocks /
the bandwidth vote are still held when the function returns. -/
structure PasResult : Type where
  ret : Int
  buf : BufDisposition
  clksLeftEnabled : Bool
  bwLeftHeld : Bool
deriving DecidableEq, Repr

/-- Model of `qcom_scm_pas_init_image`: allocate the metadata buffer (`-ENOMEM`
on failure), copy the metadata in, enable clocks (`goto out` on
failure), enable bandwidth (`return ret` on failure), issue the call,
disable bandwidth and clocks, and at `out` free the buffer when
`ret < 0 || !ctx`, otherwise hand it to the context.  The final return
value is `ret ? : res.result[0]`. -/
def qcom_scm_pas_init_image (allocOk : Bool) (clkRet bwRet callRet res0 : Int)
    (ctxGiven : Bool) : PasResult :=
  if ¬allocOk then
    { ret := -12, buf := BufDisposition.neverAllocated,
      clksLeftEnabled := false, bwLeftHeld := false }
  else if clkRet ≠ 0 then
    if clkRet < 0 ∨ ¬ctxGiven then
      { ret := clkRet, buf := BufDisposition.freed,
        clksLeftEnabled := false, bwLeftHeld := false }
    else
      { ret := clkRet, buf := BufDisposition.ownedByCtx,
        clksLeftEnabled := false, bwLeftHeld := false }
  else if bwRet ≠ 0 then
    { ret := bwRet, buf := BufDisposition.leaked,
      clksLeftEnabled := true, bwLeftHeld := false }
  else
    let ret := if callRet ≠ 0 then callRet else res0
    if callRet < 0 ∨ ¬ctxGiven then
      { ret := ret, buf := BufDisposition.freed,
        clksLeftEnabled := false, bwLeftHeld := false }
    else
      { ret := ret, buf := BufDisposition.ownedByCtx,
        clksLeftEnabled := false, bwLeftHeld := false }

/-! ## Wait-queue completion bridge -/

/-- Model of `qcom_scm_assert_valid_wq_ctx`: only context id 0 is valid; any
other id is rejected with `-EINVAL`. -/
def qcom_scm_assert_valid_wq_ctx (wq_ctx : Nat) : Int :=
  if wq_ctx ≠ 0 then -22 else 0

/-- Model of `wait_for_completion` on a done-counter: proceed (consuming one
completion) when the counter is positive, otherwise block (`none`). -/
def wait_for_completion (done : Nat) : Option Nat :=
  if 0 < done then some (done - 1) else none

/-- Model of `complete`: deliver one completion. -/
def completion_complete (done : Nat) : Nat := done + 1

/-- Model of `qcom_scm_wait_for_wq_completion`: validate the context id,
returning its error immediately (completion state untouched) when
invalid; otherwise wait on the single completion — `some (0, done')`
when the wait can proceed, `none` when the caller blocks. -/
def qcom_scm_wait_for_wq_completion (wq_ctx : Nat) (done : Nat) :
    Option (Int × Nat) :=
  if qcom_scm_assert_valid_wq_ctx wq_ctx ≠ 0 then
    some (qcom_scm_assert_valid_wq_ctx wq_ctx, done)
  else
    match wait_for_completion done with
    | some d => some (0, d)
    | none => none

/-- Model of `qcom_scm_waitq_wakeup` (the interrupt path's wake delivery):
validate the context id and, when valid, `complete` the single
completion. -/
def qcom_scm_waitq_wakeup (wq_ctx : Nat) (done : Nat) : Int × Nat :=
  if qcom_scm_assert_valid_wq_ctx wq_ctx ≠ 0 then
    (qcom_scm_assert_valid_wq_ctx wq_ctx, done)
  else
    (0, completion_complete done)

/-! ## Theorems -/

/-- C4: the clock gate enables core, then iface, then bus, in that
order; on full success each enable count rises by one; on any failure
the state is restored to its pre-call value (every previously-enabled
stage is disabled), and in particular a bus-stage failure performs the
enables in order and then rolls back iface and core. -/
theorem clk_enable_order_and_rollback (o : ClkOracle) (s : ClkState) :
    ((qcom_scm_clk_enable o s).1 = 0 →
      (qcom_scm_clk_enable o s).2.1 =
        ⟨s.core + 1, s.iface + 1, s.bus + 1⟩ ∧
      (qcom_scm_clk_enable o s).2.2 =
        [ClkEvent.prepareEnable Clk.core true,
         ClkEvent.prepareEnable Clk.iface true,
         ClkEvent.prepareEnable Clk.bus true]) ∧
    ((qcom_scm_clk_enable o s).1 ≠ 0 → (qcom_scm_clk_enable o s).2.1 = s) ∧
    (o.coreRet = 0 → o.ifaceRet = 0 → o.busRet ≠ 0 →
      (qcom_scm_clk_enable o s).1 = o.busRet ∧
      (qcom_scm_clk_enable o s).2.1 = s ∧
      (qcom_scm_clk_enable o s).2.2 =
        [ClkEvent.prepareEnable Clk.core true,
         ClkEvent.prepareEnable Clk.iface true,
         ClkEvent.prepareEnable Clk.bus false,
         ClkEvent.disableUnprepare Clk.iface,
         ClkEvent.disableUnprepare Clk.core]) := by
  by_cases hc : o.coreRet = 0 <;> by_cases hi : o.ifaceRet = 0 <;>
    by_cases hb : o.busRet = 0 <;>
    simp [qcom_scm_clk_enable, clk_prepare_enable, hc, hi, hb]

/-- Witness for C4: a forced failure on the bus-clock stage during a
fresh enable leaves zero clocks enabled afterward. -/
theorem clk_enable_order_and_rollback_witness :
    (qcom_scm_clk_enable ⟨0, 0, -1⟩ clkInit).2.1 = clkInit :=
  ((clk_enable_order_and_rollback ⟨0, 0, -1⟩ clkInit).2.2
    (by decide) (by decide) (by decide)).2.1

/-- Counterexample to C2: a single `qcom_scm_bw_disable` issued on a
valid path while the vote count is zero decrements the count to `-1`;
it is not a defensive no-op and the count does go below zero. -/
theorem bw_disable_at_zero_underflows :
    (runBwOps IccPath.okPath [BwOp.disable] bwInit).voteCount = -1 := by
  decide

/-- C2 (amended): the vote count stays nonnegative for exactly those
call sequences in which every disable is issued while the count is
positive; an unbalanced disable at count zero instead drives the count
to `-1`. -/
theorem bw_vote_count_nonneg_of_disable_safe (path : IccPath)
    (ops : List BwOp) (s : BwState) (h0 : 0 ≤ s.voteCount)
    (hsafe : bwDisableSafe path ops s = true) :
    0 ≤ (runBwOps path ops s).voteCount := by
  induction ops generalizing s with
  | nil => simpa [runBwOps] using h0
  | cons op ops ih =>
    cases op with
    | enable r =>
      simp only [runBwOps, bwDisableSafe] at hsafe ⊢
      refine ih _ ?_ hsafe
      cases path with
      | nullPath => simpa [qcom_scm_bw_enable] using h0
      | errPath => simpa [qcom_scm_bw_enable] using h0
      | okPath =>
        simp only [qcom_scm_bw_enable]
        split_ifs <;> simp_all
        omega
    | disable =>
      simp only [runBwOps, bwDisableSafe, Bool.and_eq_true,
        decide_eq_true_eq] at hsafe ⊢
      obtain ⟨hpos, hrest⟩ := hsafe
      refine ih _ ?_ hrest
      cases path <;> simp only [qcom_scm_bw_disable] <;> omega

/-- Witness for C2 (amended): one successful enable followed by one
disable keeps the count nonnegative. -/
theorem bw_vote_count_nonneg_of_disable_safe_witness :
    0 ≤ (runBwOps IccPath.okPath [BwOp.enable 0, BwOp.disable] bwInit).voteCount :=
  bw_vote_count_nonneg_of_disable_safe IccPath.okPath
    [BwOp.enable 0, BwOp.disable] bwInit (by decide) (by decide)

/-- C5: the convention negotiator always yields a concrete convention
(never the `Unknown` sentinel) and publishes it in the cache; an
already-resolved cache is returned without re-probing; on a 64-bit
platform an affirmative `ARM_64` probe adopts `ARM_64`; an
inconclusive probe on the sc7180 variant force-adopts `ARM_64` with
the forced flag and no further probing; otherwise an affirmative
`ARM_32` probe adopts `ARM_32`, and when that also fails the result is
`LEGACY`. -/
theorem get_convention_resolves (cfg : ConvConfig) (o : ProbeOracle)
    (cached : SmcConvention) :
    (get_convention cfg o cached).result ≠ SmcConvention.unknown ∧
    (get_convention cfg o cached).cached = (get_convention cfg o cached).result ∧
    (cached ≠ SmcConvention.unknown →
      get_convention cfg o cached = ⟨cached, false, cached, []⟩) ∧
    (cached = SmcConvention.unknown → cfg.arm64 = true →
      probeOk o.arm64Ret o.arm64Res0 = true →
      get_convention cfg o cached =
        ⟨SmcConvention.arm64, false, SmcConvention.arm64,
          [SmcConvention.arm64]⟩) ∧
    (cached = SmcConvention.unknown → cfg.arm64 = true →
      probeOk o.arm64Ret o.arm64Res0 = false → cfg.sc7180 = true →
      get_convention cfg o cached =
        ⟨SmcConvention.arm64, true, SmcConvention.arm64,
          [SmcConvention.arm64]⟩) ∧
    (cached = SmcConvention.unknown → cfg.arm64 = true →
      probeOk o.arm64Ret o.arm64Res0 = false → cfg.sc7180 = false →
      probeOk o.arm32Ret o.arm32Res0 = true →
      (get_convention cfg o cached).result = SmcConvention.arm32) ∧
    (cached = SmcConvention.unknown → cfg.arm64 = true →
      probeOk o.arm64Ret o.arm64Res0 = false → cfg.sc7180 = false →
      probeOk o.arm32Ret o.arm32Res0 = false →
      (get_convention cfg o cached).result = SmcConvention.legacy) := by
  unfold get_convention
  split_ifs <;> simp_all

/-- Witness for C5: an inconclusive `ARM_64` probe on the sc7180
variant force-adopts `ARM_64` and records the choice as forced. -/
theorem get_convention_resolves_witness :
    get_convention ⟨true, true⟩ ⟨-5, 0, -5, 0⟩ SmcConvention.unknown =
      ⟨SmcConvention.arm64, true, SmcConvention.arm64, [SmcConvention.arm64]⟩ :=
  (get_convention_resolves ⟨true, true⟩ ⟨-5, 0, -5, 0⟩
    SmcConvention.unknown).2.2.2.2.1 rfl rfl (by decide) rfl

/-- C6: when the convention in effect is not one of the three
recognized conventions (that is, the `Unknown` sentinel), both the
blocking and the atomic dispatcher return `-EINVAL` without
dispatching to any backend. -/
theorem call_dispatch_unknown_convention_einval (conv : SmcConvention)
    (h32 : conv ≠ SmcConvention.arm32) (h64 : conv ≠ SmcConvention.arm64)
    (hleg : conv ≠ SmcConvention.legacy) :
    qcom_scm_call conv = Except.error (-22) ∧
    qcom_scm_call_atomic conv = Except.error (-22) := by
  cases conv <;> simp_all [qcom_scm_call, qcom_scm_call_atomic]

/-- Witness for C6: the `Unknown` sentinel itself is rejected with
`-EINVAL` by both dispatch variants. -/
theorem call_dispatch_unknown_convention_einval_witness :
    qcom_scm_call SmcConvention.unknown = Except.error (-22) ∧
    qcom_scm_call_atomic SmcConvention.unknown = Except.error (-22) :=
  call_dispatch_unknown_convention_einval SmcConvention.unknown
    (by decide) (by decide) (by decide)

/-- The `next_vm` accumulation agrees with a plain OR of `2 ^ vmid`
and stays below `2 ^ 31` when every destination vmid is below 31. -/
theorem next_vm_bits_eq_or_fold (newvm : List VmPerm)
    (h : ∀ p ∈ newvm, p.vmid < 31) :
    next_vm_bits newvm =
      newvm.foldl (fun acc p => acc ||| (1 <<< p.vmid)) 0 ∧
    next_vm_bits newvm < 2 ^ 31 := by
  have aux : ∀ (l : List VmPerm) (acc : Nat), (∀ p ∈ l, p.vmid < 31) →
      acc < 2 ^ 31 →
      l.foldl (fun a p => next_vm_step a p.vmid) acc =
        l.foldl (fun a p => a ||| (1 <<< p.vmid)) acc ∧
      l.foldl (fun a p => next_vm_step a p.vmid) acc < 2 ^ 31 := by
    intro l
    induction l with
    | nil => intro acc _ hacc; exact ⟨rfl, hacc⟩
    | cons p l ih =>
      intro acc hl hacc
      have hp : p.vmid < 31 := hl p (List.mem_cons_self p l)
      have hb2 : (1 : Nat) <<< p.vmid < 2 ^ 31 := by
        rw [Nat.shiftLeft_eq, one_mul]
        exact Nat.pow_lt_pow_right (by norm_num) hp
      have hbit : BIT64 p.vmid = 1 <<< p.vmid := by
        unfold BIT64
        exact Nat.mod_eq_of_lt (lt_trans hb2 (by norm_num))
      have hlor : acc ||| (1 <<< p.vmid) < 2 ^ 31 :=
        Nat.bitwise_lt hacc hb2
      have hstep : next_vm_step acc p.vmid = acc ||| (1 <<< p.vmid) := by
        unfold next_vm_step
        rw [hbit]
        exact Nat.mod_eq_of_lt (lt_trans hlor (by norm_num))
      have hlt : next_vm_step acc p.vmid < 2 ^ 31 := by
        rw [hstep]; exact hlor
      have := ih (next_vm_step acc p.vmid)
        (fun q hq => hl q (List.mem_cons_of_mem p hq)) hlt
      refine ⟨?_, this.2⟩
      simpa [List.foldl, hstep] using this.1
  exact aux newvm 0 h (by norm_num)

/-- Counterexample to C7: the new `*srcvm` is not always the OR of
`BIT(vmid)` over the destination list.  A destination vmid of 32 is
dropped entirely (the `int next_vm` accumulator truncates `BIT(32)` to
zero, leaving `*srcvm = 0` instead of bit 32 set), and a destination
vmid of 31 makes `next_vm` negative, so the store into the `u64`
sign-extends and sets bits 31 through 63 rather than bit 31 alone. -/
theorem assign_mem_owner_bitmask_cex :
    (qcom_scm_assign_mem true 0 9 [⟨32, 6⟩]).2 ≠
      [VmPerm.mk 32 6].foldl (fun acc p => acc ||| (1 <<< p.vmid)) (0 : Nat) ∧
    (qcom_scm_assign_mem true 0 9 [⟨32, 6⟩]).2 = 0 ∧
    (qcom_scm_assign_mem true 0 9 [⟨31, 6⟩]).2 ≠
      [VmPerm.mk 31 6].foldl (fun acc p => acc ||| (1 <<< p.vmid)) (0 : Nat) ∧
    Nat.testBit (qcom_scm_assign_mem true 0 9 [⟨31, 6⟩]).2 63 = true := by
  decide

/-- C7 (amended): on a successful call (and successful allocation),
when every destination vmid is below 31 the new `*srcvm` is exactly
the OR of `BIT(vmid)` over the destination list, independent of the
previous `*srcvm` value; outside that range the `int next_vm`
accumulator truncates vmids 32-63 away and sign-extends a set bit 31
over bits 31-63. -/
theorem assign_mem_success_sets_owner_bitmask (srcvm : Nat)
    (newvm : List VmPerm) (h : ∀ p ∈ newvm, p.vmid < 31) :
    qcom_scm_assign_mem true 0 srcvm newvm =
      ((0 : Int), newvm.foldl (fun acc p => acc ||| (1 <<< p.vmid)) (0 : Nat)) := by
  obtain ⟨heq, hlt⟩ := next_vm_bits_eq_or_fold newvm h
  show ((0 : Int), u64_of_int32bits (next_vm_bits newvm)) = _
  rw [heq] at hlt
  unfold u64_of_int32bits
  rw [heq, if_pos hlt]

/-- Witness for C7: from current-owner bitmask `{0,3}` (value 9) and
destination list `[(vmid = 5, perm = RW)]`, the new bitmask is 32: bit
5 set, bits 0 and 3 cleared. -/
theorem assign_mem_success_sets_owner_bitmask_witness :
    qcom_scm_assign_mem true 0 9 [⟨5, 6⟩] = (0, 32) ∧
    Nat.testBit 32 5 = true ∧ Nat.testBit 32 0 = false ∧
    Nat.testBit 32 3 = false := by
  refine ⟨?_, by decide, by decide, by decide⟩
  exact (assign_mem_success_sets_owner_bitmask 9 [⟨5, 6⟩] (by decide)).trans
    (by decide)

/-- C10: when the underlying assign call fails, `qcom_scm_assign_mem`
returns `-EINVAL` (collapsing the specific underlying error) and
leaves the caller's owner bitmask unchanged. -/
theorem assign_mem_call_failure_atomic (srcvm : Nat) (newvm : List VmPerm)
    (callRet : Int) (h : callRet ≠ 0) :
    qcom_scm_assign_mem true callRet srcvm newvm = (-22, srcvm) := by
  simp [qcom_scm_assign_mem, h]

/-- Witness for C10: a call failing with `-19` is reported as `-22`
with the owner bitmask 9 untouched. -/
theorem assign_mem_call_failure_atomic_witness :
    qcom_scm_assign_mem true (-19) 9 [⟨5, 6⟩] = (-22, 9) :=
  assign_mem_call_failure_atomic 9 [⟨5, 6⟩] (-19) (by decide)

/-- C9: a wait on any context id other than 0 returns `-EINVAL`
immediately with the completion untouched; a wait on context 0 with no
pending completion blocks, and after the interrupt path delivers a
wake for context 0 the wait proceeds. -/
theorem wait_for_wq_completion_contract (ctx done : Nat) :
    (ctx ≠ 0 → qcom_scm_wait_for_wq_completion ctx done = some (-22, done)) ∧
    qcom_scm_wait_for_wq_completion 0 0 = none ∧
    (∀ d : Nat,
      qcom_scm_wait_for_wq_completion 0 (qcom_scm_waitq_wakeup 0 d).2 =
        some (0, d)) := by
  refine ⟨fun h => ?_, by decide, fun d => ?_⟩
  · simp [qcom_scm_wait_for_wq_completion, qcom_scm_assert_valid_wq_ctx, h]
  · simp [qcom_scm_wait_for_wq_completion, qcom_scm_waitq_wakeup,
      qcom_scm_assert_valid_wq_ctx, wait_for_completion, completion_complete]

/-- Witness for C9: context id 3 is rejected immediately with
`-EINVAL`. -/
theorem wait_for_wq_completion_contract_witness :
    qcom_scm_wait_for_wq_completion 3 7 = some (-22, 7) :=
  (wait_for_wq_completion_contract 3 7).1 (by decide)

/-- C1 at its failing input: in the direct backend, when the SCM call
fails, `qcom_scm_ice_set_key` frees the key transport buffer while it
still holds the caller's key material — the `memzero_explicit` runs
only on the success path, so the Secret buffer is not zeroed before
its backing store is returned. -/
theorem ice_set_key_call_failure_frees_unzeroed_key :
    qcom_scm_ice_set_key false true (-5) =
      (-5, [IceEvent.alloc 1 true, IceEvent.copyIn 1, IceEvent.scmCall (-5),
        IceEvent.free 1 BufContent.callerKey]) ∧
    IceEvent.free 1 BufContent.callerKey ∈
      (qcom_scm_ice_set_key false true (-5)).2 ∧
    IceEvent.memzeroExplicit 1 ∉ (qcom_scm_ice_set_key false true (-5)).2 := by
  decide

/-- C3 at its failing input: when the bandwidth vote fails after a
successful allocation and clock enable, `qcom_scm_pas_init_image`
returns the error with the clocks still enabled and the metadata
buffer neither freed nor handed to the context. -/
theorem pas_init_image_bw_failure_leaks_clocks_and_buffer :
    qcom_scm_pas_init_image true 0 (-22) 0 0 true =
      ⟨-22, BufDisposition.leaked, true, false⟩ := by
  decide

/-- C8 at its failing input: in the bridged backend of the wrapped-key
importing operation, the caller's raw key is marshaled into the first
buffer before the second buffer is allocated, and when that second
allocation fails the first buffer is freed still holding the raw key
(no zeroing step precedes the free). -/
theorem import_ice_key_bridged_marshals_before_alloc :
    qcom_scm_import_ice_key true true false 0 =
      (-12, [IceEvent.alloc 1 true, IceEvent.copyIn 1, IceEvent.flush 1,
        IceEvent.alloc 2 false, IceEvent.free 1 BufContent.callerKey]) := by
  decide

end QcomScm
